import Mathlib

/-!
Verification of the secure-resource subsystem of the Sudachi kernel
(`src/core/hle/kernel/k_system_resource.cpp`) and of the profile-select
applet completion callback
(`src/core/hle/service/am/applets/applet_profile_select.cpp`),
as a shallow embedding: the stateful C++ methods become pure Lean
functions on an explicit state record, and externally visible actions
(platform memory-controller calls, resource-limit operations) are
recorded in an event trace so that ordering and absence of calls can be
stated and proved.
-/

namespace Sudachi

/-- Page size used by the kernel (`PageSize`, 4 KiB). -/
def PageSize : Nat := 4096

/-- Modelled from the spec: size in bytes of one entry of the
reference-count table (`KPageTableManager::RefCount`, a fixed-size
per-page counter; the header defining it is not among the sampled
sources). -/
def RefCountEntrySize : Nat := 2

/-- Modelled from the spec: `Common::AlignUp`, upward alignment of `x`
to a multiple of `a` (the common helper header is not among the sampled
sources; the spec requires the table size to be page-aligned upward). -/
def AlignUp (x a : Nat) : Nat := (x + a - 1) / a * a

/-- Modelled from the spec: `KPageTableSlabHeap::CalculateReferenceCountSize`,
a pure function of the total region size giving one fixed-size counter
per page-sized unit (the slab-heap header is not among the sampled
sources). -/
def CalculateReferenceCountSize (size : Nat) : Nat :=
  size / PageSize * RefCountEntrySize

/-- The page-aligned reference-count table size computed by
`KSecureSystemResource::Initialize` from the raw `m_resource_size`:
`Common::AlignUp(KPageTableSlabHeap::CalculateReferenceCountSize(m_resource_size), PageSize)`. -/
def rcTableSize (size : Nat) : Nat :=
  AlignUp (CalculateReferenceCountSize size) PageSize

/-- The platform layer (`KSystemControl`): the policy function
`CalculateRequiredSecureMemorySize(size, pool)` and the secure allocator
`AllocateSecureMemory(size, pool)`, which either fails (`none`) or
returns a base address. The platform is a parameter of the model; each
theorem holds for every platform. -/
structure Platform where
  calcSecureSize : Nat → Nat → Nat
  allocSecure : Nat → Nat → Option Nat

/-- The owning resource limit (`KResourceLimit`), restricted to the one
resource kind this subsystem touches (`Svc::LimitableResource::PhysicalMemoryMax`):
committed amount, configured maximum, and external reference count
(`Open`/`Close`). -/
structure KResourceLimit where
  committed : Nat
  max : Nat
  refCount : Nat
deriving DecidableEq

/-- Configuration the dynamic page manager is initialized with
(`KDynamicPageManager::Initialize(address, size, granularity)`). -/
structure DPMConfig where
  address : Nat
  size : Nat
  granularity : Nat
deriving DecidableEq

/-- Member fields of `KSecureSystemResource` relevant to the claims.
The three `*_used` fields are the `GetUsed()` counters of the three
slab managers (memory-block, block-info, page-table). -/
structure KSecureSystemResource where
  m_resource_size : Nat
  m_resource_pool : Nat
  m_resource_address : Nat
  m_is_initialized : Bool
  m_dynamic_page_manager : Option DPMConfig
  mb_used : Nat
  bi_used : Nat
  pt_used : Nat
deriving DecidableEq

/-- Externally visible actions: platform secure-memory calls and
resource-limit operations. -/
inductive PEvent where
  | alloc (size pool : Nat)
  | free (addr size pool : Nat)
  | release (amount : Nat)
  | openRL
  | closeRL
deriving DecidableEq

/-- The whole state a call to `Initialize`/`Finalize` reads and writes:
the object, its resource limit, and the trace of external actions
performed so far. -/
structure KState where
  res : KSecureSystemResource
  limit : KResourceLimit
  trace : List PEvent
deriving DecidableEq

/-- Recoverable error results of `Initialize`: `ResultLimitReached`,
`ResultOutOfMemory`, and a platform allocation failure propagated
verbatim by `R_TRY`. -/
inductive RError where
  | LimitReached
  | OutOfMemory
  | AllocFailed
deriving DecidableEq

/-- Outcome of `Initialize`: success, a recoverable error result (with
the state as left behind after all rollbacks ran), or a fatal assertion
failure (`ASSERT`). -/
inductive InitOutcome where
  | fatal
  | err (e : RError) (s : KState)
  | ok (s : KState)
deriving DecidableEq

/-- `KSecureSystemResource::CalculateRequiredSecureMemorySize(size, pool)`:
delegates to the platform policy function. -/
def KSecureSystemResource.CalculateRequiredSecureMemorySize
    (plat : Platform) (size pool : Nat) : Nat :=
  plat.calcSecureSize size pool

/-- `KSecureSystemResource::Initialize(size, resource_limit, pool)`.
Mirrors the source line by line: set the members; compute `secure_size`;
open a scoped reservation (fail with `ResultLimitReached` if the new
committed total would exceed the maximum); call `AllocateSecureMemory`
(propagating failure, with the provisional reservation rolled back by
the scope guard); `ASSERT` the returned address is nonzero; arm the
`ON_RESULT_FAILURE` rollback that frees the secure memory; check
`m_resource_size > rc_size` (else `ResultOutOfMemory`: the free rollback
and the reservation rollback both fire); initialize the dynamic page
manager, heaps and managers; commit the reservation; `Open()` the
resource limit; set `m_is_initialized`. -/
def KSecureSystemResource.Init (plat : Platform) (st : KState)
    (size pool : Nat) : InitOutcome :=
  let res0 := { st.res with m_resource_size := size, m_resource_pool := pool }
  let secure_size := KSecureSystemResource.CalculateRequiredSecureMemorySize plat size pool
  if st.limit.max < st.limit.committed + secure_size then
    .err .LimitReached { st with res := res0 }
  else
    let limitReserved := { st.limit with committed := st.limit.committed + secure_size }
    let trace1 := st.trace ++ [.alloc size pool]
    match plat.allocSecure size pool with
    | none => .err .AllocFailed { st with res := res0, trace := trace1 }
    | some addr =>
      if addr = 0 then .fatal
      else
        let res1 := { res0 with m_resource_address := addr }
        let rc_size := rcTableSize size
        if size ≤ rc_size then
          .err .OutOfMemory
            { st with res := res1, trace := trace1 ++ [.free addr size pool] }
        else
          let res2 := { res1 with
            m_dynamic_page_manager := some ⟨addr + rc_size, size - rc_size, PageSize⟩,
            mb_used := 0, bi_used := 0, pt_used := 0,
            m_is_initialized := true }
          .ok { res := res2,
                limit := { limitReserved with refCount := limitReserved.refCount + 1 },
                trace := trace1 ++ [.openRL] }

/-- `KSecureSystemResource::Finalize()`. The three `ASSERT`s on the used
counts of the slab managers are fatal: `none` models the abort. On the
happy path it frees the secure memory with the original address, raw
size and pool, releases the recomputed
`CalculateRequiredSecureMemorySize()` amount back to the resource limit,
and closes the resource-limit reference, in that order. -/
def KSecureSystemResource.Finalize (plat : Platform) (st : KState) :
    Option KState :=
  if st.res.mb_used = 0 ∧ st.res.bi_used = 0 ∧ st.res.pt_used = 0 then
    let amt := KSecureSystemResource.CalculateRequiredSecureMemorySize plat
      st.res.m_resource_size st.res.m_resource_pool
    some { st with
      limit := { st.limit with
        committed := st.limit.committed - amt,
        refCount := st.limit.refCount - 1 },
      trace := st.trace ++
        [.free st.res.m_resource_address st.res.m_resource_size st.res.m_resource_pool,
         .release amt, .closeRL] }
  else none

/-- The free-memory events of a trace (calls to
`KSystemControl::FreeSecureMemory`). -/
def freeEvents (t : List PEvent) : List PEvent :=
  t.filter fun e => match e with | .free _ _ _ => true | _ => false

/-- The invalid UUID (`Common::InvalidUUID`, the all-zero value). A UUID
is modelled as its 128-bit value; `IsValid()` is being different from
the invalid UUID. -/
def InvalidUUID : Nat := 0

/-- Modelled from the spec: raw value of `Account::ResultCancelledByUser`
(error module Account = 124, description 1, raw = module + description · 2⁹;
the account errors header is not among the sampled sources). -/
def cancelledByUserRaw : Nat := 124 + 1 * 512

/-- Modelled from the spec: byte size of `UiReturnArg` (a 64-bit result
code followed by a 128-bit UUID; the applet header defining it is not
among the sampled sources). -/
def sizeofUiReturnArg : Nat := 24

/-- The return argument written by `SelectionComplete`: the result code
and the selected UUID. -/
structure UiReturnArg where
  result : Nat
  uuid_selected : Nat
deriving DecidableEq

/-- State of the profile-select applet as seen by `SelectionComplete`:
the applet `status` (raw result value, 0 = `ResultSuccess`), the buffers
pushed to the broker so far (each with its byte size and contents), and
the number of `SignalStateChanged` calls. -/
structure PSState where
  status : Nat
  pushed : List (Nat × UiReturnArg)
  state_changes : Nat
deriving DecidableEq

/-- `ProfileSelect::SelectionComplete(uuid)`: if the optional UUID is
present and valid, the return argument carries result 0 and the selected
UUID and `status` is untouched; otherwise `status` is set to
`Account::ResultCancelledByUser`, the result is the raw value of that
error and the UUID is the invalid UUID. In both cases a buffer of
`sizeof(UiReturnArg)` bytes holding the return argument is pushed to the
broker and a state change is signalled. -/
def ProfileSelect.SelectionComplete (st : PSState) (uuid : Option Nat) : PSState :=
  let stepped :=
    match uuid with
    | some u =>
      if u ≠ InvalidUUID then (st.status, UiReturnArg.mk 0 u)
      else (cancelledByUserRaw, UiReturnArg.mk cancelledByUserRaw InvalidUUID)
    | none => (cancelledByUserRaw, UiReturnArg.mk cancelledByUserRaw InvalidUUID)
  { status := stepped.1,
    pushed := st.pushed ++ [(sizeofUiReturnArg, stepped.2)],
    state_changes := st.state_changes + 1 }

/-! Concrete fixtures used by witnesses: a platform whose policy
function is the identity on the size and whose allocator always returns
address 65536, and an initial state with an empty resource limit of
maximum 100000. -/

def testPlat : Platform :=
  { calcSecureSize := fun s _ => s, allocSecure := fun _ _ => some 65536 }

def testRes : KSecureSystemResource :=
  ⟨0, 0, 0, false, none, 0, 0, 0⟩

def testState : KState := ⟨testRes, ⟨0, 100000, 0⟩, []⟩

/-- The state a successful `Init testPlat testState 8192 0` produces. -/
def c1InitState : KState :=
  ⟨⟨8192, 0, 65536, true, some ⟨69632, 4096, 4096⟩, 0, 0, 0⟩,
   ⟨8192, 100000, 1⟩, [.alloc 8192 0, .openRL]⟩

/-- A state whose resource limit has maximum 0, so every nonzero
reservation fails. -/
def tightState : KState := ⟨testRes, ⟨0, 0, 0⟩, []⟩

/-- A platform whose allocator reports success with base address 0, in
violation of the platform contract. -/
def zeroPlat : Platform :=
  { calcSecureSize := fun s _ => s, allocSecure := fun _ _ => some 0 }

/-- Inversion of the success path of `Init`: the reservation fit, the
platform returned a nonzero address, the region exceeds its
reference-count table, and the final state is fully determined. -/
theorem Init_ok_inv (plat : Platform) (st : KState) (size pool : Nat) (st' : KState)
    (h : KSecureSystemResource.Init plat st size pool = .ok st') :
    st.limit.committed + plat.calcSecureSize size pool ≤ st.limit.max ∧
    ∃ addr, plat.allocSecure size pool = some addr ∧ addr ≠ 0 ∧
      rcTableSize size < size ∧
      st' = ⟨⟨size, pool, addr, true,
              some ⟨addr + rcTableSize size, size - rcTableSize size, PageSize⟩, 0, 0, 0⟩,
             ⟨st.limit.committed + plat.calcSecureSize size pool, st.limit.max,
              st.limit.refCount + 1⟩,
             st.trace ++ [.alloc size pool, .openRL]⟩ := by
  simp only [KSecureSystemResource.Init,
    KSecureSystemResource.CalculateRequiredSecureMemorySize] at h
  split at h
  · simp at h
  · rename_i h1
    split at h
    · simp at h
    · rename_i addr halloc
      split at h
      · simp at h
      · rename_i ha
        split at h
        · simp at h
        · rename_i hrc
          injection h with h2
          refine ⟨Nat.not_lt.mp h1, addr, halloc, ha, Nat.not_le.mp hrc, ?_⟩
          subst h2
          simp

/-- The out-of-memory failure path of `Init` computed in closed form:
with a successful reservation and a successful nonzero allocation but a
reference-count table at least as large as the region, `Init` returns
`ResultOutOfMemory`, the rollback free event is recorded, and the
resource limit is left as before the call. -/
theorem Init_oom_eq (plat : Platform) (st : KState) (size pool a : Nat)
    (hres : st.limit.committed + plat.calcSecureSize size pool ≤ st.limit.max)
    (halloc : plat.allocSecure size pool = some a) (ha : a ≠ 0)
    (hrc : size ≤ rcTableSize size) :
    KSecureSystemResource.Init plat st size pool
      = .err .OutOfMemory
          ({ st with
             res := { st.res with m_resource_size := size,
                                  m_resource_pool := pool,
                                  m_resource_address := a },
             trace := st.trace ++ [.alloc size pool, .free a size pool] } : KState) := by
  simp [KSecureSystemResource.Init,
    KSecureSystemResource.CalculateRequiredSecureMemorySize,
    Nat.not_lt.mpr hres, halloc, ha, hrc]

/-- Inversion common to every recoverable error path of `Init`: the
initialized flag and the resource limit are unchanged, while the size
and pool members have already been overwritten. -/
theorem Init_err_inv (plat : Platform) (st : KState) (size pool : Nat)
    (e : RError) (st' : KState)
    (h : KSecureSystemResource.Init plat st size pool = .err e st') :
    st'.res.m_is_initialized = st.res.m_is_initialized
    ∧ st'.res.m_resource_size = size ∧ st'.res.m_resource_pool = pool
    ∧ st'.limit = st.limit := by
  simp only [KSecureSystemResource.Init,
    KSecureSystemResource.CalculateRequiredSecureMemorySize] at h
  split at h
  · injection h with h1 h2
    subst h2
    simp
  · split at h
    · injection h with h1 h2
      subst h2
      simp
    · split at h
      · simp at h
      · split at h
        · injection h with h1 h2
          subst h2
          simp
        · simp at h

/-- Claim C1: a successful `Initialize(size, resource_limit, pool)`
raises the committed amount of the resource limit by exactly
`CalculateRequiredSecureMemorySize(size, pool)`, and an immediately
following `Finalize()` (no allocations in between, so all used counts
are still zero) succeeds and restores the committed amount to its value
before `Initialize`. -/
theorem init_then_finalize_restores_committed
    (plat : Platform) (st : KState) (size pool : Nat) (st' : KState)
    (h : KSecureSystemResource.Init plat st size pool = .ok st') :
    st'.limit.committed
      = st.limit.committed + KSecureSystemResource.CalculateRequiredSecureMemorySize plat size pool
    ∧ ∃ st'', KSecureSystemResource.Finalize plat st' = some st''
        ∧ st''.limit.committed = st.limit.committed := by
  obtain ⟨hres, addr, halloc, ha, hrc, rfl⟩ := Init_ok_inv plat st size pool st' h
  refine ⟨rfl, ?_⟩
  simp [KSecureSystemResource.Finalize, KSecureSystemResource.CalculateRequiredSecureMemorySize]

theorem init_then_finalize_restores_committed_witness :
    c1InitState.limit.committed
      = testState.limit.committed
        + KSecureSystemResource.CalculateRequiredSecureMemorySize testPlat 8192 0
    ∧ ∃ st'', KSecureSystemResource.Finalize testPlat c1InitState = some st''
        ∧ st''.limit.committed = testState.limit.committed :=
  init_then_finalize_restores_committed testPlat testState 8192 0 c1InitState (by decide)

/-- Claim C2 counterexample: at `size = 4096` the page-aligned
reference-count table size is 4096 ≥ `size`, so the claim demands
failure with `ResultOutOfMemory`; but against a resource limit with
maximum 0 the reservation step fails first and `Initialize` returns
`ResultLimitReached` instead. -/
theorem init_oom_claim_counterexample :
    4096 ≤ rcTableSize 4096
    ∧ KSecureSystemResource.Init testPlat tightState 4096 0
        = .err .LimitReached ⟨⟨4096, 0, 0, false, none, 0, 0, 0⟩, ⟨0, 0, 0⟩, []⟩
    ∧ RError.LimitReached ≠ RError.OutOfMemory := by decide

/-- Claim C2 (amended): for every `size` whose page-aligned
reference-count table size is ≥ `size`, provided the scoped reservation
succeeds and the platform allocation succeeds with a nonzero address,
`Initialize` fails with `ResultOutOfMemory` and the committed amount of
the resource limit is unchanged after the call (the provisional
reservation is rolled back). -/
theorem init_oom_when_table_too_big
    (plat : Platform) (st : KState) (size pool a : Nat)
    (hrc : size ≤ rcTableSize size)
    (hres : st.limit.committed
        + KSecureSystemResource.CalculateRequiredSecureMemorySize plat size pool
      ≤ st.limit.max)
    (halloc : plat.allocSecure size pool = some a) (ha : a ≠ 0) :
    ∃ st', KSecureSystemResource.Init plat st size pool = .err .OutOfMemory st'
      ∧ st'.limit.committed = st.limit.committed :=
  ⟨_, Init_oom_eq plat st size pool a hres halloc ha hrc, rfl⟩

theorem init_oom_when_table_too_big_witness :
    ∃ st', KSecureSystemResource.Init testPlat testState 4096 0 = .err .OutOfMemory st'
      ∧ st'.limit.committed = testState.limit.committed :=
  init_oom_when_table_too_big testPlat testState 4096 0 65536
    (by decide) (by decide) (by decide) (by decide)

/-- Claim C3: when the scoped reservation of `secure_size` units would
exceed the maximum of the resource limit, `Initialize` fails with
`ResultLimitReached` and performs no further action: no platform call is
made (the trace is unchanged), the resource limit is untouched (neither
committed nor opened), and the object is not marked initialized. Only
the member fields set in the very first step have been written. -/
theorem init_limit_reached_no_partial_state
    (plat : Platform) (st : KState) (size pool : Nat)
    (h : st.limit.max
      < st.limit.committed + KSecureSystemResource.CalculateRequiredSecureMemorySize plat size pool) :
    ∃ st', KSecureSystemResource.Init plat st size pool = .err .LimitReached st'
      ∧ st'.trace = st.trace
      ∧ st'.limit = st.limit
      ∧ st'.res.m_is_initialized = st.res.m_is_initialized := by
  refine ⟨({ st with res := { st.res with m_resource_size := size,
                                          m_resource_pool := pool } } : KState),
    ?_, rfl, rfl, rfl⟩
  simp [KSecureSystemResource.Init,
    KSecureSystemResource.CalculateRequiredSecureMemorySize] at h ⊢
  simp [h]

theorem init_limit_reached_no_partial_state_witness :
    ∃ st', KSecureSystemResource.Init testPlat tightState 4096 0 = .err .LimitReached st'
      ∧ st'.trace = tightState.trace
      ∧ st'.limit = tightState.limit
      ∧ st'.res.m_is_initialized = tightState.res.m_is_initialized :=
  init_limit_reached_no_partial_state testPlat tightState 4096 0 (by decide)

/-- Claim C4: whenever the platform secure-memory allocation has
succeeded (some nonzero address `a`) and a later step of `Initialize`
fails (the only such step in the code being the reference-count-table
size check), the rollback calls `FreeSecureMemory` with exactly the
allocated address, the raw size and the pool before the error is
returned; on the success path no free event is ever emitted — the
matching free happens only in `Finalize`. -/
theorem init_rollback_frees_on_failure
    (plat : Platform) (st : KState) (size pool : Nat) :
    (∀ a, st.limit.committed + plat.calcSecureSize size pool ≤ st.limit.max →
      plat.allocSecure size pool = some a → a ≠ 0 → size ≤ rcTableSize size →
      ∃ st', KSecureSystemResource.Init plat st size pool = .err .OutOfMemory st'
        ∧ st'.trace = st.trace ++ [.alloc size pool, .free a size pool])
    ∧ (∀ st', KSecureSystemResource.Init plat st size pool = .ok st' →
        freeEvents st'.trace = freeEvents st.trace) := by
  constructor
  · intro a hres halloc ha hrc
    exact ⟨_, Init_oom_eq plat st size pool a hres halloc ha hrc, rfl⟩
  · intro st' h
    obtain ⟨hres, addr, halloc, ha, hrc, rfl⟩ := Init_ok_inv plat st size pool st' h
    simp [freeEvents]

theorem init_rollback_frees_on_failure_witness :
    (∃ st', KSecureSystemResource.Init testPlat testState 4096 0 = .err .OutOfMemory st'
      ∧ st'.trace = testState.trace ++ [.alloc 4096 0, .free 65536 4096 0])
    ∧ freeEvents c1InitState.trace = freeEvents testState.trace :=
  ⟨(init_rollback_frees_on_failure testPlat testState 4096 0).1 65536
      (by decide) (by decide) (by decide) (by decide),
   (init_rollback_frees_on_failure testPlat testState 8192 0).2 c1InitState (by decide)⟩

/-- Claim C5: `Finalize` fatally asserts that the three slab managers
have zero outstanding allocations (`none` models the abort when any is
nonzero); when they do, it performs exactly, in order: `FreeSecureMemory`
with the original address, raw size and pool; `Release` of the
recomputed `CalculateRequiredSecureMemorySize` amount back to the
resource limit; and `Close` of the resource-limit reference. -/
theorem finalize_checks_and_tears_down (plat : Platform) (st : KState) :
    (st.res.mb_used = 0 ∧ st.res.bi_used = 0 ∧ st.res.pt_used = 0 →
      KSecureSystemResource.Finalize plat st
        = some ⟨st.res,
            ⟨st.limit.committed
                - KSecureSystemResource.CalculateRequiredSecureMemorySize plat
                    st.res.m_resource_size st.res.m_resource_pool,
             st.limit.max, st.limit.refCount - 1⟩,
            st.trace ++
              [.free st.res.m_resource_address st.res.m_resource_size st.res.m_resource_pool,
               .release (KSecureSystemResource.CalculateRequiredSecureMemorySize plat
                 st.res.m_resource_size st.res.m_resource_pool),
               .closeRL]⟩)
    ∧ (¬(st.res.mb_used = 0 ∧ st.res.bi_used = 0 ∧ st.res.pt_used = 0) →
      KSecureSystemResource.Finalize plat st = none) := by
  constructor
  · intro h
    simp [KSecureSystemResource.Finalize, h]
  · intro h
    simp [KSecureSystemResource.Finalize, h]

theorem finalize_checks_and_tears_down_witness :
    KSecureSystemResource.Finalize testPlat c1InitState
      = some ⟨c1InitState.res, ⟨0, 100000, 0⟩,
          [.alloc 8192 0, .openRL, .free 65536 8192 0, .release 8192, .closeRL]⟩ :=
  (finalize_checks_and_tears_down testPlat c1InitState).1 ⟨rfl, rfl, rfl⟩

/-- Claim C6: `CalculateRequiredSecureMemorySize` is a pure function of
`(size, pool)`: after a successful `Initialize(size, _, pool)` stored
the members, the Finalize-time recomputation from the stored members
returns exactly the Initialize-time value. -/
theorem calc_secure_size_recomputed_identically
    (plat : Platform) (st : KState) (size pool : Nat) (st' : KState)
    (h : KSecureSystemResource.Init plat st size pool = .ok st') :
    KSecureSystemResource.CalculateRequiredSecureMemorySize plat
        st'.res.m_resource_size st'.res.m_resource_pool
      = KSecureSystemResource.CalculateRequiredSecureMemorySize plat size pool := by
  obtain ⟨_, addr, _, _, _, rfl⟩ := Init_ok_inv plat st size pool st' h
  rfl

theorem calc_secure_size_recomputed_identically_witness :
    KSecureSystemResource.CalculateRequiredSecureMemorySize testPlat
        c1InitState.res.m_resource_size c1InitState.res.m_resource_pool
      = KSecureSystemResource.CalculateRequiredSecureMemorySize testPlat 8192 0 :=
  calc_secure_size_recomputed_identically testPlat testState 8192 0 c1InitState (by decide)

/-- Claim C7: in every successful `Initialize`, the dynamic page manager
is initialized over `[region_base + table_size, region_base + size)`
with page granularity, where `table_size` is the reference-count table
size computed from the raw `size` and page-aligned upward. -/
theorem init_dynamic_page_manager_range
    (plat : Platform) (st : KState) (size pool : Nat) (st' : KState)
    (h : KSecureSystemResource.Init plat st size pool = .ok st') :
    st'.res.m_dynamic_page_manager
      = some ⟨st'.res.m_resource_address
                + AlignUp (CalculateReferenceCountSize size) PageSize,
              size - AlignUp (CalculateReferenceCountSize size) PageSize,
              PageSize⟩ := by
  obtain ⟨_, addr, _, _, _, rfl⟩ := Init_ok_inv plat st size pool st' h
  rfl

theorem init_dynamic_page_manager_range_witness :
    c1InitState.res.m_dynamic_page_manager
      = some ⟨c1InitState.res.m_resource_address
                + AlignUp (CalculateReferenceCountSize 8192) PageSize,
              8192 - AlignUp (CalculateReferenceCountSize 8192) PageSize,
              PageSize⟩ :=
  init_dynamic_page_manager_range testPlat testState 8192 0 c1InitState (by decide)

/-- Claim C8: if the platform allocation reports success but returns
base address 0, `Initialize` hits a fatal assertion (not a recoverable
error result); consequently on every successful `Initialize` the stored
region address is nonzero. -/
theorem init_zero_address_is_fatal (plat : Platform) (st : KState) (size pool : Nat) :
    (st.limit.committed
        + KSecureSystemResource.CalculateRequiredSecureMemorySize plat size pool
      ≤ st.limit.max →
      plat.allocSecure size pool = some 0 →
      KSecureSystemResource.Init plat st size pool = .fatal)
    ∧ (∀ st', KSecureSystemResource.Init plat st size pool = .ok st' →
        st'.res.m_resource_address ≠ 0) := by
  constructor
  · intro hres h0
    simp [KSecureSystemResource.Init,
      KSecureSystemResource.CalculateRequiredSecureMemorySize, h0]
    exact hres
  · intro st' h
    obtain ⟨_, addr, _, ha, _, rfl⟩ := Init_ok_inv plat st size pool st' h
    exact ha

theorem init_zero_address_is_fatal_witness :
    KSecureSystemResource.Init zeroPlat testState 8192 0 = .fatal
    ∧ c1InitState.res.m_resource_address ≠ 0 :=
  ⟨(init_zero_address_is_fatal zeroPlat testState 8192 0).1 (by decide) (by decide),
   (init_zero_address_is_fatal testPlat testState 8192 0).2 c1InitState (by decide)⟩

/-- Claim C9: `m_is_initialized` is set only as the final step of a
fully successful `Initialize`; on every failure path it retains its
previous value, even though the size and pool member fields have already
been overwritten with the arguments of the call. -/
theorem init_flag_only_on_success (plat : Platform) (st : KState) (size pool : Nat) :
    (∀ e st', KSecureSystemResource.Init plat st size pool = .err e st' →
      st'.res.m_is_initialized = st.res.m_is_initialized
      ∧ st'.res.m_resource_size = size ∧ st'.res.m_resource_pool = pool)
    ∧ (∀ st', KSecureSystemResource.Init plat st size pool = .ok st' →
        st'.res.m_is_initialized = true) := by
  constructor
  · intro e st' h
    obtain ⟨h1, h2, h3, _⟩ := Init_err_inv plat st size pool e st' h
    exact ⟨h1, h2, h3⟩
  · intro st' h
    obtain ⟨_, addr, _, _, _, rfl⟩ := Init_ok_inv plat st size pool st' h
    rfl

theorem init_flag_only_on_success_witness :
    ((⟨⟨4096, 0, 0, false, none, 0, 0, 0⟩, ⟨0, 0, 0⟩, []⟩ : KState).res.m_is_initialized
        = tightState.res.m_is_initialized
      ∧ (⟨⟨4096, 0, 0, false, none, 0, 0, 0⟩, ⟨0, 0, 0⟩, []⟩ : KState).res.m_resource_size = 4096
      ∧ (⟨⟨4096, 0, 0, false, none, 0, 0, 0⟩, ⟨0, 0, 0⟩, []⟩ : KState).res.m_resource_pool = 0)
    ∧ c1InitState.res.m_is_initialized = true :=
  ⟨(init_flag_only_on_success testPlat tightState 4096 0).1 .LimitReached
      ⟨⟨4096, 0, 0, false, none, 0, 0, 0⟩, ⟨0, 0, 0⟩, []⟩ (by decide),
   (init_flag_only_on_success testPlat testState 8192 0).2 c1InitState (by decide)⟩

/-- Claim C10: `SelectionComplete` on a present, valid UUID leaves the
status unchanged and pushes (0, uuid); on an absent or invalid UUID it
sets the status to `Account::ResultCancelledByUser` and pushes the raw
value of that error with the invalid UUID; in both cases exactly one
buffer of `sizeof(UiReturnArg)` bytes is pushed and one state change is
signalled. -/
theorem selection_complete_spec (st : PSState) (uuid : Option Nat) :
    (∀ u, uuid = some u → u ≠ InvalidUUID →
      ProfileSelect.SelectionComplete st uuid
        = ⟨st.status, st.pushed ++ [(sizeofUiReturnArg, ⟨0, u⟩)], st.state_changes + 1⟩)
    ∧ (uuid = none ∨ uuid = some InvalidUUID →
      ProfileSelect.SelectionComplete st uuid
        = ⟨cancelledByUserRaw,
           st.pushed ++ [(sizeofUiReturnArg, ⟨cancelledByUserRaw, InvalidUUID⟩)],
           st.state_changes + 1⟩)
    ∧ ∃ out, (ProfileSelect.SelectionComplete st uuid).pushed
          = st.pushed ++ [(sizeofUiReturnArg, out)]
        ∧ (ProfileSelect.SelectionComplete st uuid).state_changes = st.state_changes + 1 := by
  refine ⟨?_, ?_, ?_⟩
  · intro u hu hvalid
    subst hu
    simp [ProfileSelect.SelectionComplete, hvalid]
  · intro h
    rcases h with h | h <;> subst h <;> simp [ProfileSelect.SelectionComplete, InvalidUUID]
  · rcases uuid with _ | u
    · exact ⟨_, rfl, rfl⟩
    · exact ⟨_, rfl, rfl⟩

theorem selection_complete_spec_witness :
    (ProfileSelect.SelectionComplete ⟨0, [], 0⟩ (some 7)
      = ⟨(⟨0, [], 0⟩ : PSState).status,
         (⟨0, [], 0⟩ : PSState).pushed ++ [(sizeofUiReturnArg, ⟨0, 7⟩)],
         (⟨0, [], 0⟩ : PSState).state_changes + 1⟩)
    ∧ (ProfileSelect.SelectionComplete ⟨0, [], 0⟩ none
      = ⟨cancelledByUserRaw,
         (⟨0, [], 0⟩ : PSState).pushed
           ++ [(sizeofUiReturnArg, ⟨cancelledByUserRaw, InvalidUUID⟩)],
         (⟨0, [], 0⟩ : PSState).state_changes + 1⟩) :=
  ⟨(selection_complete_spec ⟨0, [], 0⟩ (some 7)).1 7 rfl (by decide),
   (selection_complete_spec ⟨0, [], 0⟩ none).2.1 (Or.inl rfl)⟩

end Sudachi
